import Mathlib

/-!
Verification of the runtime core of the async-graphql fork against its
specification.  The Rust sources under `src/` are shallowly embedded:
pure functions become Lean functions, the registry-mutating builders
become explicit state passing over a `Registry` value, fallible code
returns `Except`, and the single-shot subscription stream is embedded as
the finite list of items it yields.  Collaborator code that lives outside
the excerpted sources (the registry builder, argument extraction, path
serialization, option output resolution) is modelled from the spec and
marked as such in its doc comment.
-/

/-- JSON-shaped values, the embedding of `serde_json::Value`.  Objects are
kept as association lists in insertion order, matching `serde_json::Map`
with the order-preserving representation. -/
inductive JValue where
  | null : JValue
  | bool : Bool → JValue
  | num : Int → JValue
  | str : String → JValue
  | arr : List JValue → JValue
  | obj : List (String × JValue) → JValue
  deriving Repr

/-- Source position of an AST node (`Pos` has `line` and `column`). -/
structure Pos where
  line : Nat
  column : Nat
  deriving Repr, DecidableEq

/-- Embedding of `Pos::default()`. -/
def Pos.defaultPos : Pos := { line := 0, column := 0 }

/-- Query-execution error kinds used by the excerpted sources:
field-not-found on a type and subscriptions-not-configured, plus the
input-parsing failure kind the spec lists for argument extraction. -/
inductive QueryError where
  | FieldNotFound (field_name : String) (object : String) : QueryError
  | NotConfiguredSubscriptions : QueryError
  | ExpectedInputType (ty : String) : QueryError
  deriving Repr

/-- The execution-relevant variant of the error union: a source position,
an optional serialized path (a JSON array of path segments) and a
query-error kind, as in `Error::Query`. -/
inductive Error where
  | Query (pos : Pos) (path : Option JValue) (err : QueryError) : Error
  deriving Repr

/-- Association-list lookup by key, the embedding of `IndexMap::get` /
`HashMap::get` on string-keyed maps. -/
def alookup {α : Type} : List (String × α) → String → Option α
  | [], _ => none
  | (k, v) :: rest, key => if k = key then some v else alookup rest key

/-- Association-list insert with `IndexMap::insert` semantics: an existing
key keeps its position and gets the new value, a fresh key is appended. -/
def aInsert {α : Type} : List (String × α) → String → α → List (String × α)
  | [], key, v => [(key, v)]
  | (k, w) :: rest, key, v =>
    if k = key then (key, v) :: rest else (k, w) :: aInsert rest key v

/-- Cache hint attached to types and fields (`CacheControl`). -/
structure CacheControl where
  publicScope : Bool
  max_age : Nat
  deriving Repr, DecidableEq

/-- Embedding of `CacheControl::default()`. -/
def CacheControl.defaultCC : CacheControl := { publicScope := true, max_age := 0 }

/-- Registry-level descriptor of an input value (`MetaInputValue`); the
validator is a trait object, embedded as an optional opaque marker. -/
structure MetaInputValue where
  name : String
  description : Option String
  ty : String
  default_value : Option String
  validator : Option Unit
  deriving Repr

/-- Registry-level descriptor of a field (`MetaField`). -/
structure MetaField where
  name : String
  description : Option String
  args : List (String × MetaInputValue)
  ty : String
  deprecation : Option String
  cache_control : CacheControl
  extField : Bool
  requires : Option String
  provides : Option String
  deriving Repr

/-- Registry-level descriptor of a type.  The `Object` variant carries the
fields used by the excerpted sources; the remaining variants are listed by
the spec's data model (Modelled from the spec: "MetaType variant
\x7bObject, Scalar, Interface, Input, Union, Enum\x7d") and carry their name. -/
inductive MetaType where
  | Object (name : String) (description : Option String)
      (fields : List (String × MetaField)) (cache_control : CacheControl)
      (extendsFlag : Bool) (keys : Option (List String)) : MetaType
  | Scalar (name : String) : MetaType
  | Interface (name : String) : MetaType
  | InputObject (name : String) : MetaType
  | Union (name : String) : MetaType
  | Enum (name : String) : MetaType
  deriving Repr

/-- The name carried by a MetaType. -/
def MetaType.metaName : MetaType → String
  | .Object n _ _ _ _ _ => n
  | .Scalar n => n
  | .Interface n => n
  | .InputObject n => n
  | .Union n => n
  | .Enum n => n

/-- The field table of a MetaType (`Object` only). -/
def MetaType.fieldTable : MetaType → List (String × MetaField)
  | .Object _ _ fs _ _ _ => fs
  | _ => []

/-- The Type Registry: a catalog mapping type name to MetaType, built once
at schema-build time. -/
structure Registry where
  types : List (String × MetaType)
  deriving Repr

/-- Modelled from the spec: the Type Registry builder API `create_type`
(`registry.rs` is not among the excerpted sources).  Per the spec a type
"registers/returns its MetaType into the Type Registry (idempotent:
repeated registration for the same name must be safe/no-op-equivalent)":
the MetaType produced by the factory is stored under the implementing
type's name when that name is absent, an existing registration is left
untouched, and the type name is returned. -/
def Registry.create_type (typeName : String) (factory : Registry → MetaType)
    (r : Registry) : String × Registry :=
  match alookup r.types typeName with
  | some _ => (typeName, r)
  | none => (typeName, { r with types := r.types ++ [(typeName, factory r)] })

/-- Embedding of `EmptySubscription` (a unit struct). -/
structure EmptySubscription where
  deriving Repr

/-- Embedding of `<EmptySubscription as Type>::type_name`, which returns
the borrowed string literal found in the source. -/
def EmptySubscription.type_name : String := "EmptyMutation"

/-- Embedding of `<EmptySubscription as Type>::create_type_info`: registers
an `Object` MetaType named "EmptySubscription" with an empty field table,
default cache control, `extends = false` and no keys. -/
def EmptySubscription.create_type_info (r : Registry) : String × Registry :=
  Registry.create_type EmptySubscription.type_name
    (fun _ => MetaType.Object "EmptySubscription" none []
      CacheControl.defaultCC false none) r

/-- Embedding of `<EmptySubscription as SubscriptionType>::is_empty`. -/
def EmptySubscription.is_empty : Bool := true

/-- Embedding of `<EmptySubscription as SubscriptionType>::create_field_stream`:
the produced stream is `stream::once` of a single error item, embedded as
the finite list of items the stream yields.  The context argument is
ignored by the source (`_ctx`). -/
def EmptySubscription.create_field_stream : List (Except Error JValue) :=
  [Except.error (Error.Query Pos.defaultPos none
    QueryError.NotConfiguredSubscriptions)]

/-- A segment of the query path: a field name or a list index. -/
inductive QueryPathSegment where
  | name (s : String) : QueryPathSegment
  | index (i : Nat) : QueryPathSegment
  deriving Repr

/-- The immutable linked query path: each node carries one segment and a
back-reference to its parent (`QueryPathNode`). -/
inductive QueryPathNode where
  | node (parent : Option QueryPathNode) (segment : QueryPathSegment) :
      QueryPathNode
  deriving Repr

/-- One segment as a JSON value: names serialize as strings, indices as
numbers. -/
def QueryPathSegment.toJValue : QueryPathSegment → JValue
  | .name s => JValue.str s
  | .index i => JValue.num (Int.ofNat i)

/-- The segments of a path, root first. -/
def QueryPathNode.segments : QueryPathNode → List QueryPathSegment
  | .node none seg => [seg]
  | .node (some p) seg => p.segments ++ [seg]

/-- Modelled from the spec: serde serialization of a `QueryPathNode`
(the serde derive lives outside the excerpted sources).  Per the spec the
serialized path is "a JSON array of path segments"; serialization of this
type never fails, so `serde_json::to_value(path).ok()` is `some` of this
value. -/
def QueryPathNode.toJValue (p : QueryPathNode) : JValue :=
  JValue.arr (p.segments.map QueryPathSegment.toJValue)

/-- The slice of the resolution `Context` consumed by
`QueryRoot::resolve_field`: the requested field's name and position, the
current path node, the field's arguments, and the schema environment's
registry. -/
structure Context where
  fieldName : String
  pos : Pos
  path_node : Option QueryPathNode
  args : List (String × JValue)
  registry : Registry

/-- Modelled from the spec: argument extraction `ctx.param_value` for a
`String`-typed argument (`context.rs` is not among the excerpted
sources).  The named argument is looked up in the field's arguments and
parsed by the `String` input capability; a missing or non-string value is
an input-parsing failure carrying the field position. -/
def Context.paramString (ctx : Context) (name : String) :
    Except Error String :=
  match alookup ctx.args name with
  | some (JValue.str s) => Except.ok s
  | _ => Except.error (Error.Query ctx.pos
      (ctx.path_node.map QueryPathNode.toJValue)
      (QueryError.ExpectedInputType "String"))

/-- Modelled from the spec: argument extraction `ctx.param_value` for a
`Vec Any` argument.  `Any` wraps an arbitrary value, so a list argument
parses to its element list and anything else is an input-parsing
failure. -/
def Context.paramAnyList (ctx : Context) (name : String) :
    Except Error (List JValue) :=
  match alookup ctx.args name with
  | some (JValue.arr xs) => Except.ok xs
  | _ => Except.error (Error.Query ctx.pos
      (ctx.path_node.map QueryPathNode.toJValue)
      (QueryError.ExpectedInputType "Any"))

/-- Modelled from the spec: output resolution of an optional value
(the `Option` OutputValueType impl is not among the excerpted sources).
Per the spec the root wrapper "returns its introspection object or null
if absent". -/
def resolveOption {α : Type} (resolveInner : α → JValue) :
    Option α → JValue
  | none => JValue.null
  | some a => resolveInner a

/-- The capabilities of the wrapped inner root object and of the
out-of-source collaborators that `QueryRoot::resolve_field` calls
through: introspection object construction and resolution
(`__Schema` and `__Type` live in the model module), SDL export, the
`_service` object resolution, and the inner root's `ObjectType` and
entity-resolution capabilities.  They are parameters of the embedding:
the wrapper only calls through these interfaces. -/
structure RootCollab where
  resolveSchema : Context → Except Error JValue
  introObj : Registry → MetaType → JValue
  exportSdl : Registry → String
  resolveService : Context → Option String → Except Error JValue
  find_entity : Context → JValue → Except Error JValue
  innerResolve : Context → Except Error JValue

/-- Embedding of `QueryRoot T`: the inner root (through its capability
interface), the introspection switch, and `T::type_name()` (which is also
`QueryRoot T :: type_name()` by delegation). -/
structure QueryRoot where
  collab : RootCollab
  disable_introspection : Bool
  typeName : String

/-- The sequential `for` loop of the `_entities` branch: resolve each
representation through the inner root's `find_entity`, pushing results in
input order; the `?` operator aborts the loop with the first error. -/
def resolveEntities (findEntity : JValue → Except Error JValue) :
    List JValue → Except Error (List JValue)
  | [] => Except.ok []
  | x :: xs =>
    match findEntity x with
    | Except.error e => Except.error e
    | Except.ok v =>
      match resolveEntities findEntity xs with
      | Except.error e => Except.error e
      | Except.ok vs => Except.ok (v :: vs)

/-- Embedding of `<QueryRoot T as ObjectType>::resolve_field`: intercepts
the four reserved field names and otherwise delegates to the inner
root. -/
def QueryRoot.resolve_field (q : QueryRoot) (ctx : Context) :
    Except Error JValue :=
  if ctx.fieldName = "__schema" then
    if q.disable_introspection then
      Except.error (Error.Query ctx.pos
        (ctx.path_node.map QueryPathNode.toJValue)
        (QueryError.FieldNotFound ctx.fieldName q.typeName))
    else
      q.collab.resolveSchema ctx
  else if ctx.fieldName = "__type" then
    match ctx.paramString "name" with
    | Except.error e => Except.error e
    | Except.ok type_name =>
      Except.ok (resolveOption (q.collab.introObj ctx.registry)
        (alookup ctx.registry.types type_name))
  else if ctx.fieldName = "_entities" then
    match ctx.paramAnyList "representations" with
    | Except.error e => Except.error e
    | Except.ok representations =>
      match resolveEntities (q.collab.find_entity ctx) representations with
      | Except.error e => Except.error e
      | Except.ok res => Except.ok (JValue.arr res)
  else if ctx.fieldName = "_service" then
    q.collab.resolveService ctx (some (q.collab.exportSdl ctx.registry))
  else
    q.collab.innerResolve ctx

/-- The `__schema` MetaField inserted by `QueryRoot::create_type_info`. -/
def schemaMetaField (schema_type : String) : MetaField :=
  { name := "__schema"
    description := some "Access the current type schema of this server."
    args := []
    ty := schema_type
    deprecation := none
    cache_control := CacheControl.defaultCC
    extField := false
    requires := none
    provides := none }

/-- The `__type` MetaField inserted by `QueryRoot::create_type_info`,
with its required `name : String!` argument. -/
def typeMetaField : MetaField :=
  { name := "__type"
    description := some "Request the type information of a single type."
    args := [("name",
      { name := "name"
        description := none
        ty := "String!"
        default_value := none
        validator := none })]
    ty := "__Type"
    deprecation := none
    cache_control := CacheControl.defaultCC
    extField := false
    requires := none
    provides := none }

/-- Embedding of `<QueryRoot T as Type>::create_type_info`, parameterized
by the registrations of the collaborators it invokes: `__Schema`'s
registration and the inner root type's registration (both state-passing
over the registry).  After both run, if the registry entry under the inner
type's name is an `Object`, the two introspection fields are inserted into
its field table in place; the inner registration's result string is
returned either way. -/
def QueryRoot.create_type_info (innerName : String)
    (schemaCreate : Registry → String × Registry)
    (innerCreate : Registry → String × Registry)
    (r : Registry) : String × Registry :=
  let st := schemaCreate r
  let schema_type := st.1
  let rt := innerCreate st.2
  let root := rt.1
  let r2 := rt.2
  match alookup r2.types innerName with
  | some (MetaType.Object name desc fields cc ext keys) =>
    let fields1 := aInsert fields "__schema" (schemaMetaField schema_type)
    let fields2 := aInsert fields1 "__type" typeMetaField
    let newTypes :=
      aInsert r2.types innerName (MetaType.Object name desc fields2 cc ext keys)
    (root, { r2 with types := newTypes })
  | _ => (root, r2)

/-- The slice of one extension member consumed by `Extensions::result`:
its declared name (`Extension::name`, defaulting to none) and what its own
`result()` call returns. -/
structure ExtMember where
  name : Option String
  result : Option JValue

/-- Association-list insert with the overwrite semantics of
`serde_json::Map::insert`: an existing key gets the new value (keeping its
position), a fresh key is appended. -/
def jmapInsert (m : List (String × JValue)) (key : String) (v : JValue) :
    List (String × JValue) :=
  aInsert m key v

/-- `collect` of key-value pairs into a `serde_json::Map`: the pairs are
inserted left to right, so a later pair with an already-present key
overwrites the earlier value. -/
def jmapCollect (l : List (String × JValue)) : List (String × JValue) :=
  List.foldl (fun m p => jmapInsert m p.1 p.2) [] l

/-- The named contributions of a member list: one `(name, result)` pair
for each member that declares a name and whose `result()` is `some`, in
member order — the `filter_map` of `Extensions::result`. -/
def contributions (exts : List ExtMember) : List (String × JValue) :=
  exts.filterMap (fun e =>
    match e.name with
    | some n => e.result.map (fun r => (n, r))
    | none => none)

/-- Embedding of `<Extensions as Extension>::result`: on a nonempty member
list, collect each named member's own result into a map; an empty map (and
an empty member list) yields `none`, otherwise the map as a JSON object. -/
def Extensions.result (exts : List ExtMember) : Option JValue :=
  if exts.isEmpty then
    none
  else
    let value := jmapCollect (contributions exts)
    if value.isEmpty then none else some (JValue.obj value)

/-- State of the Extension Chain for the error hook: the list of errors
each member has received so far, one entry per registered member. -/
abbrev ExtChainState : Type := List (List Error)

/-- Embedding of `<Extensions as Extension>::error`: broadcast the error
to every member in registration order; each member's log records the
received error once. -/
def Extensions.errorHook (err : Error) (st : ExtChainState) : ExtChainState :=
  st.map (fun log => log ++ [err])

/-- Embedding of `<Result T as ErrorLogger>::log_error`: when the result
is an error the chain's error hook is called with it (under the chain
lock) and the result is returned unchanged; an ok result is returned
without any hook call. -/
def log_error {α : Type} (res : Except Error α) (st : ExtChainState) :
    Except Error α × ExtChainState :=
  match res with
  | Except.error err => (res, Extensions.errorHook err st)
  | Except.ok _ => (res, st)

/-- Type identity of a stored datum (`std::any::TypeId`), embedded as the
type's name so the fallible lookup's message can mention it. -/
abbrev TypeId : Type := String

/-- A type-erased boxed value (`Box dyn Any`): the type identity it was
boxed at, plus its payload.  `downcast_ref D` succeeds exactly when the
stored identity is `D`. -/
structure DynAny where
  tid : TypeId
  payload : Int

/-- Association-list lookup keyed by type identity, the embedding of the
type-erased data maps' `get(&TypeId::of::<D>())`. -/
def tlookup : List (TypeId × DynAny) → TypeId → Option DynAny
  | [], _ => none
  | (k, v) :: rest, key => if k = key then some v else tlookup rest key

/-- The two data scopes a `ResolveInfo` can read:
the Query Environment's request-scoped map and the Schema Environment's
schema-scoped map. -/
structure DataScopes where
  ctx_data : List (TypeId × DynAny)
  schema_data : List (TypeId × DynAny)

/-- Embedding of `ResolveInfo::data_opt`: look the type identity up in the
query-scoped map, fall back to the schema-scoped map, then downcast the
found box to the requested type. -/
def ResolveInfo.data_opt (D : TypeId) (m : DataScopes) : Option DynAny :=
  ((tlookup m.ctx_data D).or (tlookup m.schema_data D)).bind
    (fun d => if d.tid = D then some d else none)

/-- The message of the fallible lookup's failure, as formatted by
`ResolveInfo::data`. -/
def dataMissingMsg (typeName : String) : String :=
  "Data `" ++ typeName ++ "` does not exist."

/-- Embedding of `ResolveInfo::data`: the optional lookup, with a miss
turned into a field error carrying the formatted message (the requested
type's name is its type identity in this embedding). -/
def ResolveInfo.data (D : TypeId) (m : DataScopes) : Except String DynAny :=
  match ResolveInfo.data_opt D m with
  | some v => Except.ok v
  | none => Except.error (dataMissingMsg D)

/-- Embedding of `ResolveInfo::data_unchecked`: the optional lookup, with
the abrupt abort on a miss embedded as `none` (the panic message equals
`dataMissingMsg D`). -/
def ResolveInfo.data_unchecked (D : TypeId) (m : DataScopes) : Option DynAny :=
  ResolveInfo.data_opt D m

/-! Helper lemmas about the association-list operations. -/

/-- Looking up the key just inserted yields the inserted value. -/
theorem alookup_aInsert {α : Type} (m : List (String × α)) (k : String)
    (v : α) : alookup (aInsert m k v) k = some v := by
  induction m with
  | nil => simp [aInsert, alookup]
  | cons hd tl ih =>
    rcases hd with ⟨k', w⟩
    by_cases h : k' = k
    · simp [aInsert, h, alookup]
    · simp [aInsert, h, alookup, ih]

/-- Inserting under one key leaves lookups of other keys unchanged. -/
theorem alookup_aInsert_ne {α : Type} (m : List (String × α))
    (k k' : String) (v : α) (h : k' ≠ k) :
    alookup (aInsert m k v) k' = alookup m k' := by
  induction m with
  | nil => simp [aInsert, alookup, Ne.symm h]
  | cons hd tl ih =>
    rcases hd with ⟨k0, w⟩
    by_cases h0 : k0 = k
    · subst h0
      simp [aInsert, alookup, Ne.symm h]
    · simp only [aInsert, if_neg h0, alookup]
      by_cases h1 : k0 = k'
      · simp [h1]
      · simp [h1, ih]

/-- Inserting a fresh key appends the pair at the end. -/
theorem aInsert_fresh {α : Type} (m : List (String × α)) (k : String)
    (v : α) (h : k ∉ m.map Prod.fst) : aInsert m k v = m ++ [(k, v)] := by
  induction m with
  | nil => simp [aInsert]
  | cons hd tl ih =>
    rcases hd with ⟨k0, w⟩
    simp only [List.map_cons, List.mem_cons] at h
    push_neg at h
    simp only [aInsert, if_neg (Ne.symm h.1)]
    simp [ih h.2]

/-- Collecting pairwise-distinct keys into a JSON map keeps the pair list
as it is. -/
theorem jmapCollect_nodup_aux (acc l : List (String × JValue))
    (hdisj : ∀ k, k ∈ l.map Prod.fst → k ∉ acc.map Prod.fst)
    (hl : (l.map Prod.fst).Nodup) :
    List.foldl (fun m p => jmapInsert m p.1 p.2) acc l = acc ++ l := by
  induction l generalizing acc with
  | nil => simp
  | cons p tl ih =>
    rcases p with ⟨k, v⟩
    simp only [List.map_cons, List.nodup_cons] at hl
    simp only [List.foldl_cons]
    have hfresh : k ∉ acc.map Prod.fst := by
      exact hdisj k (by simp)
    rw [show jmapInsert acc k v = acc ++ [(k, v)] from aInsert_fresh acc k v hfresh]
    rw [ih (acc ++ [(k, v)]) ?_ hl.2]
    · simp
    · intro k' hk'
      simp only [List.map_append, List.mem_append, List.map_cons] at *
      intro hmem
      rcases hmem with hmem | hmem
      · exact hdisj k' (by simp [hk']) hmem
      · simp at hmem
        subst hmem
        exact hl.1 hk'

/-- Collecting pairwise-distinct keys leaves the list unchanged. -/
theorem jmapCollect_nodup (l : List (String × JValue))
    (hl : (l.map Prod.fst).Nodup) : jmapCollect l = l := by
  have := jmapCollect_nodup_aux [] l (by simp) hl
  simpa [jmapCollect] using this

/-- A successful `_entities` loop resolves every representation in input
order: the output is pointwise the successful resolution of the
corresponding input. -/
theorem resolveEntities_ok (f : JValue → Except Error JValue)
    (reps res : List JValue) (h : resolveEntities f reps = Except.ok res) :
    res.map Except.ok = reps.map f := by
  induction reps generalizing res with
  | nil =>
    simp [resolveEntities] at h
    subst h
    simp
  | cons x xs ih =>
    simp only [resolveEntities] at h
    cases hx : f x with
    | error e => rw [hx] at h; cases h
    | ok v =>
      rw [hx] at h
      cases hr : resolveEntities f xs with
      | error e => rw [hr] at h; cases h
      | ok vs =>
        rw [hr] at h
        cases h
        simp [hx, ih vs hr]

/-- A failing `_entities` loop fails with the error of some
representation's resolution. -/
theorem resolveEntities_error (f : JValue → Except Error JValue)
    (reps : List JValue) (e : Error)
    (h : resolveEntities f reps = Except.error e) :
    ∃ x ∈ reps, f x = Except.error e := by
  induction reps with
  | nil => simp [resolveEntities] at h
  | cons x xs ih =>
    simp only [resolveEntities] at h
    cases hx : f x with
    | error e' =>
      rw [hx] at h
      cases h
      exact ⟨x, by simp, hx⟩
    | ok v =>
      rw [hx] at h
      cases hr : resolveEntities f xs with
      | error e' =>
        rw [hr] at h
        cases h
        rcases ih hr with ⟨y, hy, hfy⟩
        exact ⟨y, by simp [hy], hfy⟩
      | ok vs => rw [hr] at h; cases h

/-! Claim theorems. -/

/-- C2 — counterexample evaluation: `EmptySubscription::type_name` returns
"EmptyMutation", yet `create_type_info` registers (under that key) a
MetaType named "EmptySubscription"; the two names differ, so the type
name does not equal the name of the registered MetaType. -/
theorem empty_subscription_type_name_mismatch :
    EmptySubscription.type_name = "EmptyMutation" ∧
    (EmptySubscription.create_type_info { types := [] }).2.types.map
        (fun p => (p.1, p.2.metaName))
      = [("EmptyMutation", "EmptySubscription")] ∧
    EmptySubscription.type_name ≠ "EmptySubscription" :=
  ⟨rfl, rfl, by decide⟩

/-- C10: the stream produced by `EmptySubscription::create_field_stream`
yields exactly one item, the subscriptions-not-configured query error at
the default position with no path; `is_empty` reports true; and
registration on an empty registry stores an Object MetaType named
"EmptySubscription" with an empty field table. -/
theorem empty_subscription_placeholder :
    EmptySubscription.create_field_stream
      = [Except.error (Error.Query Pos.defaultPos none
          QueryError.NotConfiguredSubscriptions)] ∧
    EmptySubscription.create_field_stream.length = 1 ∧
    EmptySubscription.is_empty = true ∧
    (EmptySubscription.create_type_info { types := [] }).2.types
      = [(EmptySubscription.type_name,
          MetaType.Object "EmptySubscription" none []
            CacheControl.defaultCC false none)] :=
  ⟨rfl, rfl, rfl, rfl⟩

/-- C3: after the wrapper's `create_type_info` runs, provided the inner
registration left an Object entry under the inner root's type name, that
entry carries both the `__schema` field and the `__type` field in its
field table, and the function returns the inner registration's result. -/
theorem query_root_create_type_info_injects (innerName : String)
    (schemaCreate innerCreate : Registry → String × Registry) (r : Registry)
    (nm : String) (desc : Option String) (flds : List (String × MetaField))
    (cc : CacheControl) (ext : Bool) (keys : Option (List String))
    (h : alookup (innerCreate (schemaCreate r).2).2.types innerName
        = some (MetaType.Object nm desc flds cc ext keys)) :
    (∃ flds2,
      alookup (QueryRoot.create_type_info innerName schemaCreate
          innerCreate r).2.types innerName
        = some (MetaType.Object nm desc flds2 cc ext keys) ∧
      alookup flds2 "__schema" = some (schemaMetaField (schemaCreate r).1) ∧
      alookup flds2 "__type" = some typeMetaField) ∧
    (QueryRoot.create_type_info innerName schemaCreate innerCreate r).1
      = (innerCreate (schemaCreate r).2).1 := by
  unfold QueryRoot.create_type_info
  simp only [h]
  refine ⟨⟨aInsert (aInsert flds "__schema"
      (schemaMetaField (schemaCreate r).1)) "__type" typeMetaField,
    ?_, ?_, ?_⟩, by trivial⟩
  · exact alookup_aInsert _ _ _
  · rw [alookup_aInsert_ne _ _ _ _ (by decide)]
    exact alookup_aInsert _ _ _
  · exact alookup_aInsert _ _ _

/-- A concrete `__Schema` registration used to exercise the wrapper's
type-info registration. -/
def schemaCreateW : Registry → String × Registry := fun r =>
  Registry.create_type "__Schema"
    (fun _ => MetaType.Object "__Schema" none [] CacheControl.defaultCC
      false none) r

/-- A concrete inner-root registration used to exercise the wrapper's
type-info registration. -/
def innerCreateW : Registry → String × Registry := fun r =>
  Registry.create_type "MyQuery"
    (fun _ => MetaType.Object "MyQuery" none [] CacheControl.defaultCC
      false none) r

/-- C3 witness: the injection theorem applied to a concrete schema with a
one-object inner root. -/
theorem query_root_create_type_info_injects_witness :
    alookup (innerCreateW (schemaCreateW { types := [] }).2).2.types "MyQuery"
      = some (MetaType.Object "MyQuery" none [] CacheControl.defaultCC
          false none) ∧
    ((∃ flds2,
      alookup (QueryRoot.create_type_info "MyQuery" schemaCreateW
          innerCreateW { types := [] }).2.types "MyQuery"
        = some (MetaType.Object "MyQuery" none flds2 CacheControl.defaultCC
            false none) ∧
      alookup flds2 "__schema"
        = some (schemaMetaField (schemaCreateW { types := [] }).1) ∧
      alookup flds2 "__type" = some typeMetaField) ∧
    (QueryRoot.create_type_info "MyQuery" schemaCreateW innerCreateW
        { types := [] }).1
      = (innerCreateW (schemaCreateW { types := [] }).2).1) :=
  ⟨rfl, query_root_create_type_info_injects "MyQuery" schemaCreateW
    innerCreateW { types := [] } "MyQuery" none [] CacheControl.defaultCC
    false none rfl⟩

/-- C6: resolving `__schema` while introspection is administratively
disabled returns a field-not-found query error carrying the field's
source position and the serialized current query path, naming the field
and the root type. -/
theorem query_root_schema_disabled (q : QueryRoot) (ctx : Context)
    (hf : ctx.fieldName = "__schema") (hd : q.disable_introspection = true) :
    q.resolve_field ctx = Except.error (Error.Query ctx.pos
      (ctx.path_node.map QueryPathNode.toJValue)
      (QueryError.FieldNotFound ctx.fieldName q.typeName)) := by
  unfold QueryRoot.resolve_field
  rw [hf]
  simp [hd]

/-- C7: resolving `__type` with a `name` argument looks that name up in
the Type Registry; a miss yields `null` (not an error) and a hit yields
the introspection object of the registered type. -/
theorem query_root_type_lookup (q : QueryRoot) (ctx : Context) (n : String)
    (hf : ctx.fieldName = "__type")
    (hn : alookup ctx.args "name" = some (JValue.str n)) :
    (alookup ctx.registry.types n = none →
      q.resolve_field ctx = Except.ok JValue.null) ∧
    (∀ ty, alookup ctx.registry.types n = some ty →
      q.resolve_field ctx = Except.ok (q.collab.introObj ctx.registry ty)) := by
  unfold QueryRoot.resolve_field
  rw [hf]
  constructor
  · intro hnone
    simp [Context.paramString, hn, hnone, resolveOption]
  · intro ty hty
    simp [Context.paramString, hn, hty, resolveOption]

/-- C8: any field name other than the four reserved names is delegated
unchanged to the inner root's ObjectType implementation. -/
theorem query_root_delegates (q : QueryRoot) (ctx : Context)
    (h1 : ctx.fieldName ≠ "__schema") (h2 : ctx.fieldName ≠ "__type")
    (h3 : ctx.fieldName ≠ "_entities") (h4 : ctx.fieldName ≠ "_service") :
    q.resolve_field ctx = q.collab.innerResolve ctx := by
  unfold QueryRoot.resolve_field
  simp [h1, h2, h3, h4]

/-- A concrete collaborator bundle used by the witnesses: leaf behaviors
for the out-of-source capabilities the wrapper calls through. -/
def collabW : RootCollab :=
  { resolveSchema := fun _ => Except.ok JValue.null
    introObj := fun _ t => JValue.str t.metaName
    exportSdl := fun _ => "schema sdl"
    resolveService := fun _ s =>
      Except.ok (JValue.obj [("sdl", resolveOption JValue.str s)])
    find_entity := fun _ v => Except.ok v
    innerResolve := fun _ => Except.ok (JValue.str "inner") }

/-- A root wrapper with introspection disabled. -/
def qClosedW : QueryRoot :=
  { collab := collabW, disable_introspection := true, typeName := "MyQuery" }

/-- A root wrapper with introspection enabled. -/
def qOpenW : QueryRoot :=
  { collab := collabW, disable_introspection := false, typeName := "MyQuery" }

/-- A concrete `__schema` field context. -/
def ctxSchemaW : Context :=
  { fieldName := "__schema"
    pos := { line := 3, column := 5 }
    path_node := some (QueryPathNode.node none
      (QueryPathSegment.name "__schema"))
    args := []
    registry := { types := [] } }

/-- C6 witness: the disabled-introspection error at a concrete context. -/
theorem query_root_schema_disabled_witness :
    ctxSchemaW.fieldName = "__schema" ∧
    qClosedW.disable_introspection = true ∧
    qClosedW.resolve_field ctxSchemaW = Except.error (Error.Query
      ctxSchemaW.pos (ctxSchemaW.path_node.map QueryPathNode.toJValue)
      (QueryError.FieldNotFound ctxSchemaW.fieldName qClosedW.typeName)) :=
  ⟨rfl, rfl, query_root_schema_disabled qClosedW ctxSchemaW rfl rfl⟩

/-- A concrete `__type` field context whose `name` argument matches no
registered type. -/
def ctxTypeMissW : Context :=
  { fieldName := "__type"
    pos := { line := 1, column := 1 }
    path_node := none
    args := [("name", JValue.str "NoSuchType")]
    registry := { types := [("Hero", MetaType.Scalar "Hero")] } }

/-- A concrete `__type` field context whose `name` argument matches a
registered type. -/
def ctxTypeHitW : Context :=
  { fieldName := "__type"
    pos := { line := 1, column := 1 }
    path_node := none
    args := [("name", JValue.str "Hero")]
    registry := { types := [("Hero", MetaType.Scalar "Hero")] } }

/-- C7 witness: `__type` on an absent name yields null and on a present
name yields the introspection object, at concrete contexts. -/
theorem query_root_type_lookup_witness :
    (alookup ctxTypeMissW.args "name" = some (JValue.str "NoSuchType") ∧
     alookup ctxTypeMissW.registry.types "NoSuchType" = none ∧
     qOpenW.resolve_field ctxTypeMissW = Except.ok JValue.null) ∧
    (alookup ctxTypeHitW.args "name" = some (JValue.str "Hero") ∧
     alookup ctxTypeHitW.registry.types "Hero"
       = some (MetaType.Scalar "Hero") ∧
     qOpenW.resolve_field ctxTypeHitW
       = Except.ok (qOpenW.collab.introObj ctxTypeHitW.registry
           (MetaType.Scalar "Hero"))) :=
  ⟨⟨rfl, rfl,
    (query_root_type_lookup qOpenW ctxTypeMissW "NoSuchType" rfl rfl).1 rfl⟩,
   ⟨rfl, rfl,
    (query_root_type_lookup qOpenW ctxTypeHitW "Hero" rfl rfl).2
      (MetaType.Scalar "Hero") rfl⟩⟩

/-- A concrete ordinary field context. -/
def ctxOtherW : Context :=
  { fieldName := "hero"
    pos := { line := 2, column := 2 }
    path_node := none
    args := []
    registry := { types := [] } }

/-- C8 witness: a non-reserved field name at a concrete context is
resolved by the inner root. -/
theorem query_root_delegates_witness :
    ctxOtherW.fieldName ≠ "__schema" ∧ ctxOtherW.fieldName ≠ "__type" ∧
    ctxOtherW.fieldName ≠ "_entities" ∧ ctxOtherW.fieldName ≠ "_service" ∧
    qOpenW.resolve_field ctxOtherW = qOpenW.collab.innerResolve ctxOtherW :=
  ⟨by decide, by decide, by decide, by decide,
   query_root_delegates qOpenW ctxOtherW (by decide) (by decide)
     (by decide) (by decide)⟩

/-- The error returned for an unmatched representation in the C1
counterexample. -/
def entityErrW : Error :=
  Error.Query Pos.defaultPos none
    (QueryError.FieldNotFound "unknownRep" "entity")

/-- An entity-resolution capability that matches only the representation
"Known" and errors on everything else. -/
def findEntityCX : Context → JValue → Except Error JValue := fun _ v =>
  match v with
  | JValue.str "Known" => Except.ok (JValue.str "KnownEntity")
  | _ => Except.error entityErrW

/-- A root wrapper whose inner root resolves only the "Known" entity. -/
def qEntityW : QueryRoot :=
  { collab := { collabW with find_entity := findEntityCX }
    disable_introspection := false
    typeName := "MyQuery" }

/-- An `_entities` field context with an unmatched first representation
and a matching second one. -/
def ctxEntitiesW : Context :=
  { fieldName := "_entities"
    pos := { line := 4, column := 9 }
    path_node := none
    args := [("representations",
      JValue.arr [JValue.str "Unknown", JValue.str "Known"])]
    registry := { types := [] } }

/-- C1 — counterexample: with two representations of which the first
matches no entity while the second resolves fine, the whole `_entities`
resolution is the first element's error; no output list is produced and
the sibling's successful resolution does not survive, so the failure is
not per-element. -/
theorem query_root_entities_counterexample :
    qEntityW.resolve_field ctxEntitiesW = Except.error entityErrW ∧
    qEntityW.collab.find_entity ctxEntitiesW (JValue.str "Known")
      = Except.ok (JValue.str "KnownEntity") :=
  ⟨rfl, rfl⟩

/-- C1 (amended): `_entities` resolves the representations sequentially
in input order; when every representation resolves, the output list has
exactly one resolved entity per representation in input order, and when
any representation fails, the whole `_entities` field resolution fails
with the error of a failing representation. -/
theorem query_root_entities_amended (q : QueryRoot) (ctx : Context)
    (reps : List JValue) (hf : ctx.fieldName = "_entities")
    (hr : alookup ctx.args "representations" = some (JValue.arr reps)) :
    (∀ res, resolveEntities (q.collab.find_entity ctx) reps = Except.ok res →
      q.resolve_field ctx = Except.ok (JValue.arr res) ∧
      res.map Except.ok = reps.map (q.collab.find_entity ctx)) ∧
    (∀ e, resolveEntities (q.collab.find_entity ctx) reps = Except.error e →
      q.resolve_field ctx = Except.error e ∧
      ∃ x ∈ reps, q.collab.find_entity ctx x = Except.error e) := by
  unfold QueryRoot.resolve_field
  rw [hf]
  constructor
  · intro res hres
    refine ⟨?_, resolveEntities_ok _ _ _ hres⟩
    simp [Context.paramAnyList, hr, hres]
  · intro e he
    refine ⟨?_, resolveEntities_error _ _ _ he⟩
    simp [Context.paramAnyList, hr, he]

/-- An `_entities` field context whose two representations both
resolve. -/
def ctxEntitiesOkW : Context :=
  { fieldName := "_entities"
    pos := { line := 4, column := 9 }
    path_node := none
    args := [("representations", JValue.arr [JValue.str "A", JValue.str "B"])]
    registry := { types := [] } }

/-- C1 witness: on an all-matching representation list, the output is one
entity per representation in input order. -/
theorem query_root_entities_amended_witness :
    ctxEntitiesOkW.fieldName = "_entities" ∧
    alookup ctxEntitiesOkW.args "representations"
      = some (JValue.arr [JValue.str "A", JValue.str "B"]) ∧
    (qOpenW.resolve_field ctxEntitiesOkW
      = Except.ok (JValue.arr [JValue.str "A", JValue.str "B"]) ∧
     ([JValue.str "A", JValue.str "B"]).map Except.ok
      = ([JValue.str "A", JValue.str "B"]).map
          (qOpenW.collab.find_entity ctxEntitiesOkW)) :=
  ⟨rfl, rfl,
   (query_root_entities_amended qOpenW ctxEntitiesOkW
     [JValue.str "A", JValue.str "B"] rfl rfl).1
     [JValue.str "A", JValue.str "B"] rfl⟩

/-- The two same-named contributing members of the C4 counterexample. -/
def dupExtsW : List ExtMember :=
  [{ name := some "x", result := some (JValue.str "a") },
   { name := some "x", result := some (JValue.str "b") }]

/-- C4 — counterexample: two members both declare the name "x" and both
contribute a result, yet the side-channel map carries a single entry
(holding the later value), not one entry per contributing member. -/
theorem extensions_result_counterexample :
    Extensions.result dupExtsW = some (JValue.obj [("x", JValue.str "b")]) ∧
    (contributions dupExtsW).length = 2 ∧
    ([("x", JValue.str "b")] : List (String × JValue)).length = 1 :=
  ⟨rfl, rfl, rfl⟩

/-- C4 (amended): when the contributing members declare pairwise-distinct
names, the side-channel map has exactly one entry per contributing member
in member order, members without a name (or whose own result is absent)
contribute nothing, and the overall result is absent exactly when no
member contributes, including for the empty member list; members sharing
a name collapse into a single entry. -/
theorem extensions_result_amended (exts : List ExtMember)
    (h : ((contributions exts).map Prod.fst).Nodup) :
    Extensions.result exts =
      if (contributions exts).isEmpty then none
      else some (JValue.obj (contributions exts)) := by
  cases exts with
  | nil => simp [Extensions.result, contributions]
  | cons e es =>
    have hres : Extensions.result (e :: es)
        = (if (jmapCollect (contributions (e :: es))).isEmpty then none
           else some (JValue.obj (jmapCollect (contributions (e :: es))))) := by
      simp [Extensions.result]
    rw [hres, jmapCollect_nodup _ h]

/-- Distinctly-named members for the C4 witness: one contributor, one
nameless member, one named member without a result. -/
def extsW : List ExtMember :=
  [{ name := some "tracing", result := some (JValue.str "one") },
   { name := none, result := some (JValue.str "ghost") },
   { name := some "cache", result := none }]

/-- C4 witness: the amended result law at a concrete member list. -/
theorem extensions_result_amended_witness :
    ((contributions extsW).map Prod.fst).Nodup ∧
    Extensions.result extsW =
      (if (contributions extsW).isEmpty then none
       else some (JValue.obj (contributions extsW))) :=
  ⟨by decide, extensions_result_amended extsW (by decide)⟩

/-- C5: the data lookup searches the query-scoped map before the
schema-scoped map: a well-typed query-scoped entry is returned even when
the schema scope also holds the same data type; with no query-scoped entry
the lookup falls through to the schema scope; the fallible form fails
with the formatted does-not-exist message exactly when the optional form
returns nothing; and the unchecked form reads the same optional lookup. -/
theorem resolve_info_data_layering (D : TypeId) (m : DataScopes) :
    (∀ v, tlookup m.ctx_data D = some v → v.tid = D →
      ResolveInfo.data_opt D m = some v) ∧
    (tlookup m.ctx_data D = none →
      ResolveInfo.data_opt D m
        = (tlookup m.schema_data D).bind
            (fun d => if d.tid = D then some d else none)) ∧
    (ResolveInfo.data D m = Except.error (dataMissingMsg D) ↔
      ResolveInfo.data_opt D m = none) ∧
    ResolveInfo.data_unchecked D m = ResolveInfo.data_opt D m := by
  refine ⟨?_, ?_, ?_, rfl⟩
  · intro v hv htid
    simp [ResolveInfo.data_opt, hv, Option.or, htid]
  · intro hnone
    simp [ResolveInfo.data_opt, hnone, Option.or]
  · unfold ResolveInfo.data
    cases hopt : ResolveInfo.data_opt D m <;> simp

/-- Data scopes registering the same data type in both scopes with
different payloads. -/
def scopesW : DataScopes :=
  { ctx_data := [("Cfg", { tid := "Cfg", payload := 1 })]
    schema_data := [("Cfg", { tid := "Cfg", payload := 2 })] }

/-- C5 witness: with the same data type in both scopes, the lookup
returns the query-scoped value. -/
theorem resolve_info_data_layering_witness :
    tlookup scopesW.ctx_data "Cfg" = some { tid := "Cfg", payload := 1 } ∧
    tlookup scopesW.schema_data "Cfg" = some { tid := "Cfg", payload := 2 } ∧
    ResolveInfo.data_opt "Cfg" scopesW = some { tid := "Cfg", payload := 1 } :=
  ⟨rfl, rfl, (resolve_info_data_layering "Cfg" scopesW).1 _ rfl rfl⟩

/-- C9: the error-logging wrapper returns the result unchanged; on an
error it invokes the chain's error hook exactly once with that error, so
every registered member's log grows by exactly that one error; on an ok
result no hook fires and every log is unchanged. -/
theorem error_logger_log_error {α : Type} (res : Except Error α)
    (st : ExtChainState) :
    (log_error res st).1 = res ∧
    (∀ e, res = Except.error e →
      (log_error res st).2 = st.map (fun log => log ++ [e])) ∧
    (∀ v, res = Except.ok v → (log_error res st).2 = st) := by
  refine ⟨?_, ?_, ?_⟩
  · cases res <;> rfl
  · intro e he
    subst he
    rfl
  · intro v hv
    subst hv
    rfl

/-- A two-member chain state for the C9 witness. -/
def chainStW : ExtChainState :=
  [[], [Error.Query Pos.defaultPos none
    QueryError.NotConfiguredSubscriptions]]

/-- The concrete error logged in the C9 witness. -/
def errW : Error :=
  Error.Query { line := 7, column := 7 } none
    (QueryError.FieldNotFound "f" "Obj")

/-- C9 witness: logging a concrete error result returns it unchanged and
appends the error once to each member's log. -/
theorem error_logger_log_error_witness :
    (log_error (Except.error errW : Except Error JValue) chainStW).1
      = Except.error errW ∧
    (log_error (Except.error errW : Except Error JValue) chainStW).2
      = chainStW.map (fun log => log ++ [errW]) :=
  ⟨(error_logger_log_error _ chainStW).1,
   (error_logger_log_error _ chainStW).2.1 errW rfl⟩
